import Mathlib

/-!
Verification of `src/004-postgres-client/query_users.py`.

The script is a single linear procedure:

```
time.sleep(5)
conn = psycopg2.connect(host="postgres-db", port=5432, database="mydb",
                        user="admin", password="admin123")
cur = conn.cursor()
cur.execute("SELECT * FROM users")
rows = cur.fetchall()
print("Users in the database:")
for row in rows:
    print(row)
cur.close()
conn.close()
```

We model the external world as the outcomes the database library returns at
the three fallible call sites (connect, execute, fetchall); `time.sleep`
cannot fail.  An uncaught exception from any of these terminates the Python
process with exit code 1.  The function `run` maps a world to the complete
observable behaviour of one execution: the ordered trace of effectful steps,
the lines written to standard output, and the exit status.
-/

/-- A database error message, as signalled by the client library. -/
abbrev DBError := String

/-- The connection parameter record passed to `psycopg2.connect`. -/
structure ConnParams where
  host : String
  port : Nat
  database : String
  user : String
  password : String
deriving DecidableEq

/-- The literal connection parameters embedded in the source. -/
def connParams : ConnParams :=
  { host := "postgres-db"
    port := 5432
    database := "mydb"
    user := "admin"
    password := "admin123" }

/-- A dynamically-typed column value, as returned by the query engine. -/
inductive Value where
  | int (n : Int)
  | str (s : String)
deriving DecidableEq

/-- A row: an ordered sequence of column values. -/
abbrev Row := List Value

/-- Python default rendering (`repr`) of a single value. -/
def Value.pyRepr : Value → String
  | .int n => toString n
  | .str s => "'" ++ s ++ "'"

/-- Python default rendering of a row, i.e. `str` of a tuple:
`(1, 'alice')`, with the one-element form `(1,)`. -/
def pyReprRow : Row → String
  | [v] => "(" ++ v.pyRepr ++ ",)"
  | r => "(" ++ String.intercalate ", " (r.map Value.pyRepr) ++ ")"

/-- The single fixed SQL statement in the source. -/
def sqlQuery : String := "SELECT * FROM users"

/-- The fixed header line printed before the rows. -/
def headerLine : String := "Users in the database:"

/-- One observable step of the script. -/
inductive Event where
  | sleep (secs : Nat)
  | connect (p : ConnParams)
  | execute (q : String)
  | fetch
  | printLine (s : String)
  | closeCursor
  | closeConn
deriving DecidableEq

/-- How the process terminates. -/
inductive ExitStatus where
  | success
  | failure (e : DBError)
deriving DecidableEq

/-- The operating-system exit code: 0 on success, 1 for an uncaught
Python exception. -/
def ExitStatus.code : ExitStatus → Nat
  | .success => 0
  | .failure _ => 1

/-- The environment: the outcome the database library produces at each of
the three fallible call sites of the script. -/
structure World where
  connectResult : Except DBError Unit
  executeResult : Except DBError Unit
  fetchResult : Except DBError (List Row)

/-- The complete observable behaviour of one execution. -/
structure Run where
  events : List Event
  stdout : List String
  exit : ExitStatus
deriving DecidableEq

/-- Shallow embedding of the script: the unconditional sleep, then the
three fallible steps in order; an error at any step aborts the run with
no output and no cleanup; on success the header and the rows are printed
and the cursor and connection are closed, in that order. -/
def run (w : World) : Run :=
  match w.connectResult with
  | .error e =>
      { events := [.sleep 5, .connect connParams]
        stdout := []
        exit := .failure e }
  | .ok _ =>
    match w.executeResult with
    | .error e =>
        { events := [.sleep 5, .connect connParams, .execute sqlQuery]
          stdout := []
          exit := .failure e }
    | .ok _ =>
      match w.fetchResult with
      | .error e =>
          { events := [.sleep 5, .connect connParams, .execute sqlQuery, .fetch]
            stdout := []
            exit := .failure e }
      | .ok rows =>
          { events := [.sleep 5, .connect connParams, .execute sqlQuery, .fetch]
              ++ (headerLine :: rows.map pyReprRow).map Event.printLine
              ++ [.closeCursor, .closeConn]
            stdout := headerLine :: rows.map pyReprRow
            exit := .success }

/-- The lines printed after the header. -/
def dataLines (r : Run) : List String := r.stdout.drop 1

/-- A world in which every step succeeds and the fetch returns `rows`. -/
def wOk (rows : List Row) : World :=
  { connectResult := .ok ()
    executeResult := .ok ()
    fetchResult := .ok rows }

/-- The two-row example table from the spec: `(1, 'alice')`, `(2, 'bob')`. -/
def sampleRows : List Row :=
  [[Value.int 1, Value.str "alice"], [Value.int 2, Value.str "bob"]]

/-- A world in which the connect step fails. -/
def wFailConnect : World :=
  { connectResult := .error "connection refused"
    executeResult := .ok ()
    fetchResult := .ok [] }

/-- A world in which connect succeeds but the execute step fails. -/
def wFailExecute : World :=
  { connectResult := .ok ()
    executeResult := .error "relation does not exist"
    fetchResult := .ok [] }

/-- Helper: if any of the three fallible steps errors, the run prints
nothing and exits with code 1. -/
theorem run_error_behaviour (w : World) (e : DBError)
    (h : w.connectResult = Except.error e ∨ w.executeResult = Except.error e ∨
      w.fetchResult = Except.error e) :
    (run w).stdout = [] ∧ (run w).exit.code = 1 := by
  unfold run
  cases hc : w.connectResult with
  | error e' => simp [ExitStatus.code]
  | ok u =>
    cases he : w.executeResult with
    | error e' => simp [ExitStatus.code]
    | ok u' =>
      cases hf : w.fetchResult with
      | error e' => simp [ExitStatus.code]
      | ok rows => rcases h with h | h | h <;> simp [hc, he, hf] at h

/-- Helper: on a fully successful world the run is exactly the record
produced by the success branch. -/
theorem run_ok (w : World) (rows : List Row)
    (hc : w.connectResult = Except.ok ())
    (he : w.executeResult = Except.ok ())
    (hf : w.fetchResult = Except.ok rows) :
    run w =
      { events := [.sleep 5, .connect connParams, .execute sqlQuery, .fetch]
          ++ (headerLine :: rows.map pyReprRow).map Event.printLine
          ++ [.closeCursor, .closeConn]
        stdout := headerLine :: rows.map pyReprRow
        exit := .success } := by
  unfold run
  rw [hc, he, hf]

/-- Claim C1: a fully successful run performs exactly the linear sequence
sleep, connect, execute, fetch, then all the printing (header first, then
the rows), then cursor close and connection close; in particular the fetch
event precedes every print event, i.e. the result set is fully materialized
before any printing begins. -/
theorem c1_linear_sequence (w : World) (rows : List Row)
    (hc : w.connectResult = Except.ok ())
    (he : w.executeResult = Except.ok ())
    (hf : w.fetchResult = Except.ok rows) :
    (run w).events =
      [Event.sleep 5, Event.connect connParams, Event.execute sqlQuery, Event.fetch]
        ++ (headerLine :: rows.map pyReprRow).map Event.printLine
        ++ [Event.closeCursor, Event.closeConn] := by
  rw [run_ok w rows hc he hf]

/-- Witness for C1 at the spec's two-row example table. -/
theorem c1_linear_sequence_witness :
    (run (wOk sampleRows)).events =
      [Event.sleep 5, Event.connect connParams, Event.execute sqlQuery, Event.fetch]
        ++ (headerLine :: sampleRows.map pyReprRow).map Event.printLine
        ++ [Event.closeCursor, Event.closeConn] :=
  c1_linear_sequence (wOk sampleRows) sampleRows rfl rfl rfl

/-- Claim C2: an error at the connect, execute or fetch step is not caught:
the process exits with a non-zero status and nothing has been written to
standard output (in particular no data lines). -/
theorem c2_uncaught_error (w : World) (e : DBError)
    (h : w.connectResult = Except.error e ∨ w.executeResult = Except.error e ∨
      w.fetchResult = Except.error e) :
    (run w).exit.code ≠ 0 ∧ (run w).stdout = [] := by
  obtain ⟨h1, h2⟩ := run_error_behaviour w e h
  exact ⟨by omega, h1⟩

/-- Witness for C2: a run whose connect step fails. -/
theorem c2_uncaught_error_witness :
    (run wFailConnect).exit.code ≠ 0 ∧ (run wFailConnect).stdout = [] :=
  c2_uncaught_error wFailConnect "connection refused" (Or.inl rfl)

/-- Claim C3: on success, standard output is exactly the fixed header line
followed by one line per row, in the order returned, each line the default
rendering of that row's tuple of values. -/
theorem c3_output_lines (w : World) (rows : List Row)
    (hc : w.connectResult = Except.ok ())
    (he : w.executeResult = Except.ok ())
    (hf : w.fetchResult = Except.ok rows) :
    (run w).stdout = headerLine :: rows.map pyReprRow := by
  rw [run_ok w rows hc he hf]

/-- Witness for C3: the spec's example table prints
`Users in the database:` then `(1, 'alice')` then `(2, 'bob')`. -/
theorem c3_output_lines_witness :
    (run (wOk sampleRows)).stdout =
      ["Users in the database:", "(1, 'alice')", "(2, 'bob')"] :=
  c3_output_lines (wOk sampleRows) sampleRows rfl rfl rfl

/-- Claim C4: in every world — success or failure — the trace begins with
the unconditional 5-second sleep followed immediately by the connect
attempt, so no connection is attempted before the fixed delay elapses. -/
theorem c4_sleep_precedes_connect (w : World) :
    (run w).events.take 2 = [Event.sleep 5, Event.connect connParams] := by
  obtain ⟨c, ex, f⟩ := w
  cases c <;> cases ex <;> cases f <;> rfl

/-- Witness for C4 at a concrete failing world. -/
theorem c4_sleep_precedes_connect_witness :
    (run wFailExecute).events.take 2 = [Event.sleep 5, Event.connect connParams] :=
  c4_sleep_precedes_connect wFailExecute

/-- Claim C5: on success the number of data lines (lines after the header)
equals the number of rows in the result set. -/
theorem c5_data_line_count (w : World) (rows : List Row)
    (hc : w.connectResult = Except.ok ())
    (he : w.executeResult = Except.ok ())
    (hf : w.fetchResult = Except.ok rows) :
    (dataLines (run w)).length = rows.length := by
  rw [run_ok w rows hc he hf]
  simp [dataLines]

/-- Witness for C5 at the two-row example table. -/
theorem c5_data_line_count_witness :
    (dataLines (run (wOk sampleRows))).length = sampleRows.length :=
  c5_data_line_count (wOk sampleRows) sampleRows rfl rfl rfl

/-- Claim C6: the header line appears on standard output exactly when the
run succeeds; on any failure of connect, execute or fetch it is never
printed. -/
theorem c6_header_iff_success (w : World) :
    headerLine ∈ (run w).stdout ↔ (run w).exit = ExitStatus.success := by
  obtain ⟨c, ex, f⟩ := w
  cases c <;> cases ex <;> cases f <;> simp [run]

/-- Witness for C6 at a concrete failing world. -/
theorem c6_header_iff_success_witness :
    headerLine ∈ (run wFailConnect).stdout ↔ (run wFailConnect).exit = ExitStatus.success :=
  c6_header_iff_success wFailConnect

/-- Claim C7: the cursor-close and connection-close events each occur
exactly once on the success path, as the final two steps; on any failure
they occur zero times — no cleanup on the error path. -/
theorem c7_close_exactly_once (w : World) :
    ((run w).exit = ExitStatus.success →
      ∃ pre, (run w).events = pre ++ [Event.closeCursor, Event.closeConn]
        ∧ Event.closeCursor ∉ pre ∧ Event.closeConn ∉ pre) ∧
    ((run w).exit ≠ ExitStatus.success →
      Event.closeCursor ∉ (run w).events ∧ Event.closeConn ∉ (run w).events) := by
  obtain ⟨c, ex, f⟩ := w
  cases c with
  | error e => simp [run]
  | ok u =>
    cases ex with
    | error e => simp [run]
    | ok u' =>
      cases f with
      | error e => simp [run]
      | ok rows =>
        simp only [run]
        refine ⟨fun _ => ⟨[Event.sleep 5, Event.connect connParams, Event.execute sqlQuery,
          Event.fetch] ++ (headerLine :: rows.map pyReprRow).map Event.printLine,
          by simp, by simp, by simp⟩, fun h => absurd rfl h⟩

/-- Witness for C7 at the two-row example table. -/
theorem c7_close_exactly_once_witness :
    ((run (wOk sampleRows)).exit = ExitStatus.success →
      ∃ pre, (run (wOk sampleRows)).events = pre ++ [Event.closeCursor, Event.closeConn]
        ∧ Event.closeCursor ∉ pre ∧ Event.closeConn ∉ pre) ∧
    ((run (wOk sampleRows)).exit ≠ ExitStatus.success →
      Event.closeCursor ∉ (run (wOk sampleRows)).events
        ∧ Event.closeConn ∉ (run (wOk sampleRows)).events) :=
  c7_close_exactly_once (wOk sampleRows)

/-- Claim C8: every connect attempt in every world uses the one fixed
parameter record, whose fields are exactly the literal constants embedded
in the source; the model takes no environment, flag or file input. -/
theorem c8_fixed_connection_params (w : World) (p : ConnParams)
    (h : Event.connect p ∈ (run w).events) :
    p = connParams ∧ connParams.host = "postgres-db" ∧ connParams.port = 5432 ∧
      connParams.database = "mydb" ∧ connParams.user = "admin" ∧
      connParams.password = "admin123" := by
  refine ⟨?_, rfl, rfl, rfl, rfl, rfl⟩
  obtain ⟨c, ex, f⟩ := w
  cases c <;> cases ex <;> cases f <;> simp [run] at h <;> tauto

/-- Witness for C8: the connect event of a concrete run carries the fixed
parameter record. -/
theorem c8_fixed_connection_params_witness :
    connParams = connParams ∧ connParams.host = "postgres-db" ∧ connParams.port = 5432 ∧
      connParams.database = "mydb" ∧ connParams.user = "admin" ∧
      connParams.password = "admin123" :=
  c8_fixed_connection_params (wOk []) connParams (by simp [run, wOk])

/-- Claim C9: the program is deterministic in its input: two runs that
receive the same result set (all steps succeeding, same rows in the same
order) print identical output. -/
theorem c9_deterministic_output (w₁ w₂ : World) (rows : List Row)
    (h1c : w₁.connectResult = Except.ok ())
    (h1e : w₁.executeResult = Except.ok ())
    (h1f : w₁.fetchResult = Except.ok rows)
    (h2c : w₂.connectResult = Except.ok ())
    (h2e : w₂.executeResult = Except.ok ())
    (h2f : w₂.fetchResult = Except.ok rows) :
    (run w₁).stdout = (run w₂).stdout := by
  rw [run_ok w₁ rows h1c h1e h1f, run_ok w₂ rows h2c h2e h2f]

/-- Witness for C9: two runs over the example table. -/
theorem c9_deterministic_output_witness :
    (run (wOk sampleRows)).stdout = (run (wOk sampleRows)).stdout :=
  c9_deterministic_output (wOk sampleRows) (wOk sampleRows) sampleRows
    rfl rfl rfl rfl rfl rfl

/-- Claim C10: a successful run over an empty result set still prints the
header line, prints zero data lines, closes the cursor and the connection,
and exits with status 0. -/
theorem c10_empty_result_set (w : World)
    (hc : w.connectResult = Except.ok ())
    (he : w.executeResult = Except.ok ())
    (hf : w.fetchResult = Except.ok ([] : List Row)) :
    (run w).stdout = [headerLine] ∧ dataLines (run w) = [] ∧
    (run w).events = [Event.sleep 5, Event.connect connParams, Event.execute sqlQuery,
      Event.fetch, Event.printLine headerLine, Event.closeCursor, Event.closeConn] ∧
    (run w).exit.code = 0 := by
  rw [run_ok w [] hc he hf]
  exact ⟨rfl, rfl, rfl, rfl⟩

/-- Witness for C10 at the concrete empty-table world. -/
theorem c10_empty_result_set_witness :
    (run (wOk [])).stdout = [headerLine] ∧ dataLines (run (wOk [])) = [] ∧
    (run (wOk [])).events = [Event.sleep 5, Event.connect connParams, Event.execute sqlQuery,
      Event.fetch, Event.printLine headerLine, Event.closeCursor, Event.closeConn] ∧
    (run (wOk [])).exit.code = 0 :=
  c10_empty_result_set (wOk []) rfl rfl rfl
